import Mathlib

/-!
Verification development for the envoy supervisor of the pomerium repository
(`internal/envoy/envoy.go`).  The Go code is shallowly embedded: pure string
helpers model the Go standard-library functions the file calls, the supervisor
state is an explicit structure, and every externally-determined outcome (file
system, process spawning) is passed in as an explicit environment value.
-/

set_option maxRecDepth 8192

namespace PomeriumEnvoy

/-- Go `strings.Index`-style leftmost occurrence split: `splitFirst sep s = some (a, b)`
when `s = a ++ sep ++ b` with `a` the shortest such prefix; `none` when `sep`
does not occur in `s`. -/
def splitFirst (sep : List Char) : List Char → Option (List Char × List Char)
  | [] => none
  | c :: rest =>
    if sep.isPrefixOf (c :: rest) then some ([], (c :: rest).drop sep.length)
    else
      match splitFirst sep rest with
      | some (a, b) => some (c :: a, b)
      | none => none

/-- The `"--"` separator used by the envoy log format. -/
def sepDD : List Char := ['-', '-']

/-- Go `strings.SplitN(s, "--", 3)` on char lists (`envoy.go`, `parseLog`). -/
def goSplitN3 (s : List Char) : List (List Char) :=
  match splitFirst sepDD s with
  | none => [s]
  | some (a, b) =>
    match splitFirst sepDD b with
    | none => [a, b]
    | some (c, d) => [a, c, d]

/-- Go `strings.TrimRight(ln, "\r\n")`: drop trailing CR and LF characters. -/
def trimRightCRLF (s : List Char) : List Char :=
  (s.reverse.dropWhile (fun c => c = '\r' || c = '\n')).reverse

/-- The `"[LOG_FORMAT]"` tag stripped by `parseLog`. -/
def logFormatTag : List Char := "[LOG_FORMAT]".data

/-- Go `strings.TrimPrefix(parts[0], "[LOG_FORMAT]")` from `parseLog`. -/
def stripLogFormatTag (s : List Char) : List Char :=
  if logFormatTag.isPrefixOf s then s.drop logFormatTag.length else s

/-- `parseLog` from `envoy.go`: split the line on `"--"` into at most 3 parts;
with exactly 3 parts return `(name, logLevel, msg)` where the level has the
`[LOG_FORMAT]` tag stripped; otherwise all three results stay zero valued. -/
def parseLog (line : List Char) : List Char × List Char × List Char :=
  match goSplitN3 line with
  | [p0, p1, p2] => (p1, stripLogFormatTag p0, p2)
  | _ => ([], [], [])

/-- The zerolog severity levels (external collaborator `github.com/rs/zerolog`). -/
inductive ZLevel where
  | trace
  | debug
  | info
  | warn
  | error
  | fatal
  | panicLevel
  | noLevel
  | disabled
  deriving DecidableEq, Repr

/-- Modelled from the spec (external collaborator `github.com/rs/zerolog`, the
logging sink): `zerolog.ParseLevel` recognises exactly the textual forms of the
zerolog levels as produced by `Level.String`; in particular `"warning"` is not
among them, and the empty string is the textual form of `NoLevel`, so the empty
string parses successfully. -/
def zerologParseLevel (s : String) : Option ZLevel :=
  if s = "trace" then some ZLevel.trace
  else if s = "debug" then some ZLevel.debug
  else if s = "info" then some ZLevel.info
  else if s = "warn" then some ZLevel.warn
  else if s = "error" then some ZLevel.error
  else if s = "fatal" then some ZLevel.fatal
  else if s = "panic" then some ZLevel.panicLevel
  else if s = "disabled" then some ZLevel.disabled
  else if s = "" then some ZLevel.noLevel
  else none

/-- Characters matched by the class `[a-zA-Z0-9\x2f-_.]` of `fileNameAndNumberRE`.
Inside an RE2 character class `\x2f-_` (slash to underscore) is the byte range 47..95, which also
contains `:`, `]` and the digits. -/
def isClassChar (c : Char) : Bool :=
  ('a' ≤ c && c ≤ 'z') || ('A' ≤ c && c ≤ 'Z') || ('0' ≤ c && c ≤ '9') ||
    ('/' ≤ c && c ≤ '_') || c = '.'

/-- Decimal digit test (RE2 `[0-9]`, also Go `strconv` digit checks). -/
def isDigitChar (c : Char) : Bool := '0' ≤ c && c ≤ '9'

/-- Characters matched by RE2 `\s`, namely `[\t\n\f\r ]`. -/
def isSpaceRE (c : Char) : Bool :=
  c = ' ' || c = '\t' || c = '\n' || c = Char.ofNat 12 || c = '\r'

/-- Backtracking search for `fileNameAndNumberRE` with the class segment of
length exactly `k` (tried greedily from the longest run down, matching Go's
leftmost-first semantics for `^(\[[a-zA-Z0-9\x2f-_.]+:[0-9]+])\s(.*)$`).
`full` is the text after the opening `[`.  On success returns the text of
capture groups 1 and 2. -/
def tryClassLen (full : List Char) : Nat → Option (List Char × List Char)
  | 0 => none
  | k + 1 =>
    match full.drop (k + 1) with
    | ':' :: r2 =>
      match r2.drop (r2.takeWhile isDigitChar).length with
      | ']' :: w :: tail =>
        if r2.takeWhile isDigitChar ≠ [] && isSpaceRE w &&
            tail.all (fun c => c ≠ '\n') then
          some ('[' :: full.take (k + 1) ++ ':' :: r2.takeWhile isDigitChar ++ [']'],
            tail)
        else tryClassLen full k
      | _ => tryClassLen full k
    | _ => tryClassLen full k

/-- Matching `fileNameAndNumberRE = ^(\[[a-zA-Z0-9\x2f-_.]+:[0-9]+])\s(.*)$`
against a whole string; `some (g1, g2)` returns the two capture groups.
The pattern is anchored at both ends and `.` does not match a newline. -/
def goRegexMatch (msg : List Char) : Option (List Char × List Char) :=
  match msg with
  | '[' :: rest => tryClassLen rest (rest.takeWhile isClassChar).length
  | _ => none

/-- Value of a hexadecimal digit, as in Go `strconv`. -/
def hexVal (c : Char) : Option Nat :=
  if '0' ≤ c && c ≤ '9' then some (c.toNat - 48)
  else if 'a' ≤ c && c ≤ 'f' then some (c.toNat - 87)
  else if 'A' ≤ c && c ≤ 'F' then some (c.toNat - 55)
  else none

/-- Read exactly `n` hexadecimal digits, accumulating their value. -/
def hexN : Nat → List Char → Nat → Option (Nat × List Char)
  | 0, s, acc => some (acc, s)
  | _ + 1, [], _ => none
  | n + 1, c :: rest, acc =>
    match hexVal c with
    | some v => hexN n rest (acc * 16 + v)
    | none => none

/-- Octal digit test for Go escape sequences. -/
def isOctDigit (c : Char) : Bool := '0' ≤ c && c ≤ '7'

/-- Go encodes a surrogate code point from a `\u`/`\U` escape as U+FFFD. -/
def runeOfGo (v : Nat) : Char :=
  if 0xD800 ≤ v && v ≤ 0xDFFF then Char.ofNat 0xFFFD else Char.ofNat v

/-- Go `strconv.UnquoteChar(s, quote)` on char lists (valid-UTF-8 inputs):
decodes one character or escape sequence, returning it and the remainder. -/
def unquoteChar (q : Char) : List Char → Option (Char × List Char)
  | [] => none
  | c :: rest =>
    if c = q then none
    else if c ≠ '\\' then some (c, rest)
    else
      match rest with
      | [] => none
      | e :: r =>
        if e = 'a' then some (Char.ofNat 7, r)
        else if e = 'b' then some (Char.ofNat 8, r)
        else if e = 'f' then some (Char.ofNat 12, r)
        else if e = 'n' then some (Char.ofNat 10, r)
        else if e = 'r' then some (Char.ofNat 13, r)
        else if e = 't' then some (Char.ofNat 9, r)
        else if e = 'v' then some (Char.ofNat 11, r)
        else if e = '\\' then some ('\\', r)
        else if e = '\'' || e = '"' then
          if e = q then some (e, r) else none
        else if e = 'x' then
          match hexN 2 r 0 with
          | some (v, r2) => some (Char.ofNat v, r2)
          | none => none
        else if e = 'u' then
          match hexN 4 r 0 with
          | some (v, r2) => some (runeOfGo v, r2)
          | none => none
        else if e = 'U' then
          match hexN 8 r 0 with
          | some (v, r2) => if v > 0x10FFFF then none else some (runeOfGo v, r2)
          | none => none
        else if isOctDigit e then
          match r with
          | c2 :: c3 :: r3 =>
            if isOctDigit c2 && isOctDigit c3 then
              let v := (e.toNat - 48) * 64 + (c2.toNat - 48) * 8 + (c3.toNat - 48)
              if v > 255 then none else some (Char.ofNat v, r3)
            else none
          | _ => none
        else none

/-- The decoding loop of Go `strconv.Unquote` for double-quoted content;
`fuel` bounds the iterations (each step consumes at least one character, so
fuel equal to the length is always enough). -/
def unquoteLoopGo (q : Char) : Nat → List Char → Option (List Char)
  | _, [] => some []
  | 0, _ :: _ => none
  | fuel + 1, c :: rest =>
    match unquoteChar q (c :: rest) with
    | none => none
    | some (ch, rest2) =>
      match unquoteLoopGo q fuel rest2 with
      | none => none
      | some out => some (ch :: out)

/-- The backquote character. -/
def backquoteChar : Char := Char.ofNat 96

/-- Go `strconv.Unquote` on char lists (valid-UTF-8 inputs): requires matching
quote characters at both ends; backquoted strings pass through with CRs
removed; double-quoted content is decoded escape by escape; single-quoted
content must decode to exactly one character (or be empty, which Go's trivial
path accepts). -/
def goUnquoteL (s : List Char) : Option (List Char) :=
  match s with
  | [] => none
  | [_] => none
  | q :: rest =>
    match rest.getLast? with
    | none => none
    | some lastc =>
      if q ≠ lastc then none
      else
        let inner := rest.dropLast
        if q = backquoteChar then
          if inner.contains backquoteChar then none
          else some (inner.filter (fun c => c ≠ '\r'))
        else if q = '"' || q = '\'' then
          if inner.contains '\n' then none
          else if q = '\'' then
            match inner with
            | [] => some []
            | _ =>
              match unquoteChar q inner with
              | some (ch, []) => some [ch]
              | _ => none
          else unquoteLoopGo q inner.length inner
        else none

/-- A decoded log record: the `name`, `lvl` and `msg` values passed to the
zerolog event at the end of one `handleLogs` iteration. -/
structure LogRecord where
  name : String
  lvl : ZLevel
  msg : String
  deriving DecidableEq, Repr

/-- The message post-processing in `handleLogs`:
`msg = fileNameAndNumberRE.ReplaceAllString(msg, "\"$2\"")` (the pattern is
anchored at both ends, so it replaces at most one match) followed by
`strconv.Unquote` when it succeeds. -/
def postProcessMsg (msg : List Char) : List Char :=
  let m1 :=
    match goRegexMatch msg with
    | some (_, g2) => '"' :: (g2 ++ ['"'])
    | none => msg
  match goUnquoteL m1 with
  | some u => u
  | none => m1

/-- The final message `handleLogs` computes for one (already trimmed) line:
the third `parseLog` component, defaulted to the whole raw line when empty,
then post-processed. -/
def finalMsg (line : List Char) : List Char :=
  let m0 := (parseLog line).2.2
  postProcessMsg (if m0 = [] then line else m0)

/-- One iteration of the `handleLogs` loop on an already CR/LF-trimmed line:
the name defaults to `"envoy"`, the level defaults to debug unless
`zerolog.ParseLevel` succeeds, the message defaults to the raw line, and an
empty final message produces no record. -/
def processLineL (line : List Char) : Option LogRecord :=
  let parsed := parseLog line
  let name := if parsed.1 = [] then "envoy".data else parsed.1
  let lvl :=
    match zerologParseLevel parsed.2.1.asString with
    | some x => x
    | none => ZLevel.debug
  let msg := finalMsg line
  if msg = [] then none
  else some ⟨name.asString, lvl, msg.asString⟩

/-- One iteration of `handleLogs` on a raw line as read from the stream
(the code first trims trailing CR/LF). -/
def handleLogLine (raw : String) : Option LogRecord :=
  processLineL (trimRightCRLF raw.data)

/-- Parse a nonempty all-decimal-digit string into a natural number
(the digit loop shared by Go `strconv.ParseInt` and `strconv.ParseUint`). -/
def decDigitsAux : List Char → Nat → Option Nat
  | [], acc => some acc
  | c :: rest, acc =>
    if isDigitChar c then decDigitsAux rest (acc * 10 + (c.toNat - 48)) else none

/-- Decimal digit run: `none` on an empty string or any non-digit character. -/
def decDigits? : List Char → Option Nat
  | [] => none
  | l => decDigitsAux l 0

/-- Go `strconv.Atoi` (equivalently `ParseInt(s, 10, 0)` with 64-bit `int`):
an optional sign, then a nonempty digit run; values outside the `int64` range
return `ErrRange`, which the caller treats as failure. -/
def goAtoi (s : String) : Option Int :=
  match s.data with
  | '+' :: rest =>
    (decDigits? rest).bind fun n =>
      if n ≤ 2 ^ 63 - 1 then some (Int.ofNat n) else none
  | '-' :: rest =>
    (decDigits? rest).bind fun n =>
      if n ≤ 2 ^ 63 then some (-(Int.ofNat n)) else none
  | l =>
    (decDigits? l).bind fun n =>
      if n ≤ 2 ^ 63 - 1 then some (Int.ofNat n) else none

/-- Go `strconv.ParseUint(s, 10, 32)`: a nonempty digit run with no sign;
values above `2^32 - 1` return `ErrRange`, which the caller treats as failure. -/
def goParseUint32 (s : String) : Option Nat :=
  (decDigits? s.data).bind fun n => if n ≤ 2 ^ 32 - 1 then some n else none

/-- Go's `uint32(v)` conversion of a (possibly negative) integer:
truncation to the low 32 bits, i.e. reduction modulo `2^32`. -/
def goUint32 (v : Int) : Nat := (v % ((2 : Int) ^ 32)).toNat

/-- Index of the last occurrence of a character. -/
def lastIndexOfChar (c : Char) (l : List Char) : Option Nat :=
  (l.reverse.indexOf? c).map fun i => l.length - 1 - i

/-- Index of the first occurrence of a character. -/
def indexOfChar (c : Char) (l : List Char) : Option Nat := l.indexOf? c

/-- Go `net.SplitHostPort(hostPort)`: split on the last colon; a leading `[`
demands a `]...:port` bracket form; a colon inside an unbracketed host, any
stray bracket, or a missing colon is an error (`none`). -/
def goSplitHostPort (hostPort : String) : Option (String × String) :=
  let l := hostPort.data
  match lastIndexOfChar ':' l with
  | none => none
  | some i =>
    match l with
    | '[' :: _ =>
      match indexOfChar ']' l with
      | none => none
      | some endIdx =>
        if endIdx + 1 = l.length then none
        else if endIdx + 1 = i then
          if (l.drop 1).contains '[' || (l.drop (endIdx + 1)).contains ']' then none
          else some (((l.take endIdx).drop 1).asString, (l.drop (i + 1)).asString)
        else none
    | _ =>
      let host := l.take i
      if host.contains ':' then none
      else if l.contains '[' || l.contains ']' then none
      else some (host.asString, (l.drop (i + 1)).asString)

/-- Modelled from the spec (`internal/telemetry/trace`, not under `src/`):
`trace.DatadogTracingProviderName`, the name of the tracing backend that
requires a local collector sidecar. -/
def DatadogTracingProviderName : String := "datadog"

/-- Modelled from the spec (`internal/telemetry/trace`, not under `src/`):
the comparable tracing projection `trace.TracingOptions`.  The envoy code
reads only `Provider` and `DatadogAddress`; `rest` stands for the remaining
fields, which participate in the `cmp.Equal` comparison of `serverOptions`. -/
structure TracingOptions where
  provider : String
  datadogAddress : String
  rest : String
  deriving DecidableEq, Repr

/-- `serverOptions` from `envoy.go`: the projection of the configuration that
decides whether a restart is needed (compared with `cmp.Equal`). -/
structure serverOptions where
  services : String
  logLevel : String
  tracingOptions : TracingOptions
  deriving DecidableEq, Repr

/-- Modelled from the spec (helper of the pomerium envoy package, not under
`src/`): `firstNonEmpty` returns the first of its arguments that is not the
empty string. -/
def firstNonEmpty (a b c : String) : String :=
  if a ≠ "" then a else if b ≠ "" then b else c

/-- The fields of `config.Options` that `envoy.go` reads. -/
structure GoOptions where
  services : String
  proxyLogLevel : String
  logLevel : String
  envoyAdminAccessLogPath : String
  envoyAdminProfilePath : String
  envoyAdminAddress : String
  deriving DecidableEq, Repr

/-- A configuration snapshot (`*config.Config`).  Because the two helpers are
pure functions of the snapshot, their outcomes are carried alongside it:
`tracingResult` is the outcome of `config.NewTracingOptions(cfg.Options)`
(modelled from the spec, the `config` package is not under `src/`), and
`adminParse` is the outcome of `ParseAddress(cfg.Options.EnvoyAdminAddress)`
(modelled from the spec, defined outside `src/`), holding the parsed admin
address on success. -/
structure Config where
  options : GoOptions
  tracingResult : Option TracingOptions
  adminParse : Option String
  deriving DecidableEq, Repr

/-- The serverOptions built from a snapshot inside `update`, available only
when `config.NewTracingOptions` succeeds. -/
def projectOptions (cfg : Config) : Option serverOptions :=
  cfg.tracingResult.map fun t =>
    ⟨cfg.options.services,
      firstNonEmpty cfg.options.proxyLogLevel cfg.options.logLevel "debug", t⟩

/-- The mutable supervisor state of `Server`: the current child process
(`cmd`, carrying the pid of a successfully started process, or `none`), the
restart epoch, the current options and the construction-time fields. -/
structure ServerState where
  cmd : Option Nat
  restartEpoch : Nat
  options : serverOptions
  grpcPort : String
  httpPort : String
  envoyPath : String
  deriving DecidableEq, Repr

/-- Observable actions of the supervisor, in chronological order within each
returned list. -/
inductive Event where
  | builtBootstrap
  | wroteConfig
  | spawned (pid : Nat) (args : List String)
  | spawnFailed
  | released (pid : Nat)
  | killed (pid : Nat)
  deriving DecidableEq, Repr

/-- Count of process starts in a trace. -/
def spawnCount (events : List Event) : Nat :=
  events.countP fun e =>
    match e with
    | Event.spawned _ _ => true
    | _ => false

/-- `configFileName` constant from `envoy.go`. -/
def configFileName : String := "envoy-config.yaml"

/-- Modelled from the spec (defined outside `src/`): the fixed path where the
base id of the hot-reload lineage is persisted. -/
def baseIDPath : String := "base-id-path-file"

/-- Externally-determined outcomes of one execution of `run`: the result of
`readBaseID` (modelled from the spec, defined outside `src/`: reads the
persisted base id, `none` when absent), whether each pipe creation succeeds,
and the outcome of `cmd.Start()` (`some pid` on success). -/
structure RunEnv where
  baseID : Option Nat
  stderrPipeOk : Bool
  stdoutPipeOk : Bool
  startResult : Option Nat
  deriving DecidableEq, Repr

/-- The fixed leading arguments `run` always passes to the child process. -/
def baseArgs (opts : serverOptions) : List String :=
  ["-c", configFileName, "--log-level", opts.logLevel,
    "--log-format", "[LOG_FORMAT]%l--%n--%v", "--log-format-escaped"]

/-- The argument list `run` builds for the child process. -/
def runArgs (opts : serverOptions) (epoch : Nat) (baseID : Option Nat) : List String :=
  baseArgs opts ++
    match baseID with
    | some b => ["--base-id", toString b, "--restart-epoch", toString epoch]
    | none => ["--use-dynamic-base-id", "--base-id-path", baseIDPath]

/-- The outcome of one `run` call: the returned error (if any), the state
after the call, the chronological event trace and the argument list built. -/
structure RunResult where
  err : Option String
  state : ServerState
  events : List Event
  args : List String
  deriving DecidableEq, Repr

/-- `run` from `envoy.go`: build the child arguments (incrementing the restart
epoch when a persisted base id was found — this happens before any pipe or
spawn attempt); create the two log pipes; start the child; only after a
successful start release the previous process and install the new one as
current.  Any failure returns an error with `cmd` untouched. -/
def run (env : RunEnv) (s : ServerState) : RunResult :=
  let args := runArgs s.options s.restartEpoch env.baseID
  let s1 :=
    match env.baseID with
    | some _ => { s with restartEpoch := s.restartEpoch + 1 }
    | none => s
  if env.stderrPipeOk = false then
    ⟨some "error creating stderr pipe for envoy", s1, [], args⟩
  else if env.stdoutPipeOk = false then
    ⟨some "error creating stderr pipe for envoy", s1, [], args⟩
  else
    match env.startResult with
    | none => ⟨some "error starting envoy", s1, [Event.spawnFailed], args⟩
    | some pid =>
      let relEvents :=
        match s1.cmd with
        | some old => [Event.released old]
        | none => []
      ⟨none, { s1 with cmd := some pid }, Event.spawned pid args :: relEvents, args⟩

/-- The description of the bootstrap document that `buildBootstrapConfig`
serialises (the fields the code constructs). -/
structure SocketAddressM where
  address : String
  portValue : Nat
  deriving DecidableEq, Repr

/-- A static cluster of the bootstrap document. -/
structure ClusterM where
  name : String
  connectTimeoutSeconds : Int
  staticType : Bool
  roundRobin : Bool
  http2 : Bool
  endpointAddress : SocketAddressM
  deriving DecidableEq, Repr

/-- The bootstrap document content built by `buildBootstrapConfig`. -/
structure BootstrapM where
  nodeId : String
  nodeCluster : String
  adminAddress : String
  adminAccessLogPath : String
  adminProfilePath : String
  staticClusters : List ClusterM
  statsServiceTag : String
  deriving DecidableEq, Repr

/-- The collector address computed for the Datadog cluster: default
`127.0.0.1:8126`; when `DatadogAddress` is set and splits as `host:port` the
host is overridden, and the port is overridden only when it parses as an
unsigned 32-bit decimal. -/
def datadogCollectorAddr (datadogAddress : String) : SocketAddressM :=
  let addr0 : SocketAddressM := ⟨"127.0.0.1", 8126⟩
  if datadogAddress = "" then addr0
  else
    match goSplitHostPort datadogAddress with
    | none => addr0
    | some (a, p) =>
      match goParseUint32 p with
      | some pv => ⟨a, pv⟩
      | none => ⟨a, addr0.portValue⟩

/-- The static cluster for the control plane. -/
def controlPlaneCluster (portValue : Nat) : ClusterM :=
  ⟨"pomerium-control-plane-grpc", 5, true, true, true, ⟨"127.0.0.1", portValue⟩⟩

/-- The static cluster for the Datadog collector. -/
def datadogCluster (datadogAddress : String) : ClusterM :=
  ⟨"datadog-apm", 5, true, true, false, datadogCollectorAddr datadogAddress⟩

/-- Modelled from the spec (`internal/telemetry`, not under `src/`): the fixed
stats tag value derived from the active service set. -/
def telemetryServiceName (services : String) : String := services

/-- `buildBootstrapConfig` from `envoy.go`: fail on an unparsable admin
address, then on an unparsable control-plane port (`strconv.Atoi`); the
control-plane port value goes through Go's `uint32` conversion; static
resources hold the control-plane cluster plus, exactly when the tracing
provider is Datadog, the collector cluster. -/
def buildBootstrapConfig (s : ServerState) (cfg : Config) : Except String BootstrapM :=
  match cfg.adminParse with
  | none => Except.error "invalid admin address"
  | some adminAddr =>
    match goAtoi s.grpcPort with
    | none => Except.error "invalid control plane port"
    | some v =>
      let clusters :=
        if s.options.tracingOptions.provider = DatadogTracingProviderName then
          [controlPlaneCluster (goUint32 v),
            datadogCluster s.options.tracingOptions.datadogAddress]
        else [controlPlaneCluster (goUint32 v)]
      Except.ok
        ⟨"proxy", "proxy", adminAddr, cfg.options.envoyAdminAccessLogPath,
          cfg.options.envoyAdminProfilePath, clusters,
          telemetryServiceName s.options.services⟩

/-- Externally-determined outcomes of one `update` call: whether the atomic
config-file write succeeds, and the `run` environment. -/
structure UpdateEnv where
  writeOk : Bool
  runEnv : RunEnv
  deriving DecidableEq, Repr

/-- The outcome of one `update` (or `onConfigChange`) call. -/
structure UpdateResult where
  state : ServerState
  events : List Event
  deriving DecidableEq, Repr

/-- `update` from `envoy.go` (the body of `onConfigChange`): recompute the
options projection (aborting on invalid tracing options); return unchanged if
it equals the current options; otherwise install the new options FIRST, then
build and write the bootstrap document (aborting on failure, with the new
options already installed), then `run`. -/
def update (cfg : Config) (env : UpdateEnv) (s : ServerState) : UpdateResult :=
  match cfg.tracingResult with
  | none => ⟨s, []⟩
  | some t =>
    let options : serverOptions :=
      ⟨cfg.options.services,
        firstNonEmpty cfg.options.proxyLogLevel cfg.options.logLevel "debug", t⟩
    if s.options = options then ⟨s, []⟩
    else
      let s1 := { s with options := options }
      match buildBootstrapConfig s1 cfg with
      | Except.error _ => ⟨s1, []⟩
      | Except.ok _ =>
        if env.writeOk = false then ⟨s1, [Event.builtBootstrap]⟩
        else
          let r := run env.runEnv s1
          ⟨r.state, Event.builtBootstrap :: Event.wroteConfig :: r.events⟩

/-- Externally-determined outcome of `Close`: whether `Process.Kill` succeeds
(a failure is logged and still clears the handle). -/
structure CloseEnv where
  killOk : Bool
  deriving DecidableEq, Repr

/-- The outcome of a `Close` call. -/
structure CloseResult where
  err : Option String
  state : ServerState
  events : List Event
  deriving DecidableEq, Repr

/-- `Close` from `envoy.go`: kill the current process if there is one and
clear `cmd`; the kill error (if any) is returned.  No other field changes. -/
def Close (env : CloseEnv) (s : ServerState) : CloseResult :=
  match s.cmd with
  | some pid =>
    ⟨if env.killOk then none else some "kill failed",
      { s with cmd := none }, [Event.killed pid]⟩
  | none => ⟨none, s, []⟩

/-- A sequence of `run` invocations within one server lifetime, threading the
state; returns the per-run results in order and the final state. -/
def runSeq : List RunEnv → ServerState → List RunResult × ServerState
  | [], s => ([], s)
  | e :: rest, s =>
    ((run e s) :: (runSeq rest (run e s).state).1, (runSeq rest (run e s).state).2)

/-- Number of runs in a lifetime segment that found a persisted base id. -/
def countBaseID (envs : List RunEnv) : Nat :=
  envs.countP fun e => e.baseID.isSome

/-- The value following a flag in an argument list (the `--restart-epoch`
argument the child receives). -/
def argAfter (flag : String) : List String → Option String
  | [] => none
  | a :: rest => if a = flag then rest.head? else argAfter flag rest

/-- Externally-determined outcomes of `NewServer`: working-directory creation,
embedded-binary extraction (`none` falls back to the name `"envoy"`),
`exec.LookPath` resolution, reading the binary for checksum verification, the
SHA-256 hex digest function (modelled from the spec: `crypto/sha256` plus hex
encoding, external), and the initial configuration snapshot with its `update`
environment. -/
structure NewServerEnv where
  mkdirOk : Bool
  extractResult : Option String
  lookPathOk : Bool
  readFileResult : Option (List Nat)
  sha256Hex : List Nat → String
  initialConfig : Config
  updateEnv : UpdateEnv

/-- `NewServer` from `envoy.go`: create the working directory, resolve the
envoy binary, verify its checksum when `Checksum` is nonempty (any read error
or digest mismatch is fatal), then construct the server and invoke the change
handler once with the current configuration.  Returns the constructed state
(or an error) together with the events of that first `update`. -/
def NewServer (checksum : String) (env : NewServerEnv) (grpcPort httpPort : String) :
    Except String ServerState × List Event :=
  if env.mkdirOk = false then
    (Except.error "error creating temporary working directory for envoy", [])
  else
    let envoyPath :=
      match env.extractResult with
      | some p => p
      | none => "envoy"
    if env.lookPathOk = false then (Except.error "no envoy binary found", [])
    else
      let verified : Except String Unit :=
        if checksum ≠ "" then
          match env.readFileResult with
          | none =>
            Except.error "error reading envoy binary for checksum verification"
          | some bs =>
            if checksum ≠ env.sha256Hex bs then
              Except.error "invalid envoy binary"
            else Except.ok ()
        else Except.ok ()
      match verified with
      | Except.error e => (Except.error e, [])
      | Except.ok _ =>
        let s0 : ServerState :=
          ⟨none, 0, ⟨"", "", ⟨"", "", ""⟩⟩, grpcPort, httpPort, envoyPath⟩
        let r := update env.initialConfig env.updateEnv s0
        (Except.ok r.state, r.events)

/-! ### Helper lemmas about the supervisor transitions -/

lemma run_state_options (env : RunEnv) (s : ServerState) :
    (run env s).state.options = s.options := by
  obtain ⟨bid, sep, sop, sres⟩ := env
  cases bid <;> cases sep <;> cases sop <;> cases sres <;> simp [run]

lemma run_state_grpcPort (env : RunEnv) (s : ServerState) :
    (run env s).state.grpcPort = s.grpcPort := by
  obtain ⟨bid, sep, sop, sres⟩ := env
  cases bid <;> cases sep <;> cases sop <;> cases sres <;> simp [run]

lemma run_state_epoch (env : RunEnv) (s : ServerState) :
    (run env s).state.restartEpoch =
      s.restartEpoch + (if env.baseID.isSome then 1 else 0) := by
  obtain ⟨bid, sep, sop, sres⟩ := env
  cases bid <;> cases sep <;> cases sop <;> cases sres <;> simp [run]

lemma spawnCount_run_le (env : RunEnv) (s : ServerState) :
    spawnCount (run env s).events ≤ 1 := by
  obtain ⟨bid, sep, sop, sres⟩ := env
  cases sep <;> cases sop <;> cases sres <;> cases bid <;> simp only [run] <;>
    cases s.cmd <;> simp [spawnCount, List.countP_cons]

lemma update_state_options {cfg : Config} {o : serverOptions}
    (e : UpdateEnv) (s : ServerState) (h : projectOptions cfg = some o) :
    (update cfg e s).state.options = o := by
  rcases cfg with ⟨opts, tr, ap⟩
  cases tr with
  | none => simp [projectOptions] at h
  | some t =>
    simp only [projectOptions, Option.map_some] at h
    injection h with h
    simp only [update]
    split
    · next heq => rw [heq, ← h]
    · split
      · simp [← h]
      · split
        · simp [← h]
        · rw [run_state_options]
          simp [← h]

lemma update_noop_of_eq {cfg : Config} {o : serverOptions}
    (e : UpdateEnv) (s : ServerState) (h : projectOptions cfg = some o)
    (hs : s.options = o) : update cfg e s = ⟨s, []⟩ := by
  rcases cfg with ⟨opts, tr, ap⟩
  cases tr with
  | none => simp [projectOptions] at h
  | some t =>
    simp only [projectOptions, Option.map_some] at h
    injection h with h
    simp [update, hs, ← h]

lemma spawnCount_update_le (cfg : Config) (e : UpdateEnv) (s : ServerState) :
    spawnCount (update cfg e s).events ≤ 1 := by
  rcases cfg with ⟨opts, tr, ap⟩
  cases tr with
  | none => simp [update, spawnCount]
  | some t =>
    simp only [update]
    split
    · simp [spawnCount]
    · split
      · simp [spawnCount]
      · split
        · simp [spawnCount]
        · simp only [spawnCount, List.countP_cons]
          have := spawnCount_run_le e.runEnv
            { s with options :=
                ⟨opts.services, firstNonEmpty opts.proxyLogLevel opts.logLevel "debug", t⟩ }
          simp only [spawnCount] at this
          simpa using this

/-! ### Claim theorems -/

/-- C1: in every execution of `run`, the previous process handle is released
only strictly after the spawn call has returned success (every `released`
event in the trace is preceded by a `spawned` event and occurs only in runs
that return no error); and in every execution in which the spawn call fails,
`run` returns an error, the previous handle is not released, and `srv.cmd`
is unchanged. -/
theorem run_handoff_invariant (env : RunEnv) (s : ServerState) :
    (∀ p pre post, (run env s).events = pre ++ Event.released p :: post →
      (run env s).err = none ∧ ∃ pid, Event.spawned pid (run env s).args ∈ pre)
    ∧ (env.stderrPipeOk = true → env.stdoutPipeOk = true → env.startResult = none →
      (run env s).err = some "error starting envoy" ∧
        (run env s).state.cmd = s.cmd ∧
        ∀ p, Event.released p ∉ (run env s).events) := by
  obtain ⟨bid, sep, sop, sres⟩ := env
  constructor
  · intro p pre post h
    cases sep <;> cases sop <;> cases sres <;>
      simp only [run, Bool.false_eq_true, if_true, if_false, reduceIte] at h ⊢
    case false.false.none =>
      exact absurd h.symm (by simp)
    case false.false.some pid =>
      exact absurd h.symm (by simp)
    case false.true.none =>
      exact absurd h.symm (by simp)
    case false.true.some pid =>
      exact absurd h.symm (by simp)
    case true.false.none =>
      exact absurd h.symm (by simp)
    case true.false.some pid =>
      exact absurd h.symm (by simp)
    case true.true.none =>
      rcases pre with _ | ⟨a, pre⟩ <;> simp at h
    case true.true.some pid =>
      rcases pre with _ | ⟨a, pre⟩
      · simp at h
      · refine ⟨rfl, pid, ?_⟩
        have : a = Event.spawned pid (runArgs s.options s.restartEpoch bid) := by
          simpa using congrArg (fun l => l.head?) h.symm
        simp [this]
  · intro h1 h2 h3
    subst h1; subst h2; subst h3
    cases bid <;> simp [run]

/-- C2: for every pair of configuration snapshots that project to equal
serverOptions, invoking the change handler with the second snapshot after the
first is a no-op — the state is unchanged and no bootstrap is built, no file
written, no process spawned — so two calls in a row issue at most one
restart. -/
theorem update_idempotent_on_equal_projection
    (cfg1 cfg2 : Config) (e1 e2 : UpdateEnv) (s : ServerState) (o : serverOptions)
    (h1 : projectOptions cfg1 = some o) (h2 : projectOptions cfg2 = some o) :
    update cfg2 e2 (update cfg1 e1 s).state = ⟨(update cfg1 e1 s).state, []⟩
    ∧ spawnCount ((update cfg1 e1 s).events
        ++ (update cfg2 e2 (update cfg1 e1 s).state).events) ≤ 1 := by
  have hopts : (update cfg1 e1 s).state.options = o := update_state_options e1 s h1
  have hno : update cfg2 e2 (update cfg1 e1 s).state = ⟨(update cfg1 e1 s).state, []⟩ :=
    update_noop_of_eq e2 _ h2 hopts
  refine ⟨hno, ?_⟩
  rw [hno]
  simpa [spawnCount] using spawnCount_update_le cfg1 e1 s

/-- C2 witness: a concrete instantiation of the idempotence theorem. -/
theorem update_idempotent_on_equal_projection_witness :
    update ⟨⟨"proxy", "", "info", "", "", ""⟩, some ⟨"", "", ""⟩, some "a"⟩
        ⟨true, ⟨none, true, true, some 3⟩⟩
        (update ⟨⟨"proxy", "info", "", "", "", ""⟩, some ⟨"", "", ""⟩, some "a"⟩
          ⟨true, ⟨none, true, true, some 2⟩⟩
          ⟨some 1, 0, ⟨"all", "debug", ⟨"", "", ""⟩⟩, "5443", "443", "envoy"⟩).state
      = ⟨(update ⟨⟨"proxy", "info", "", "", "", ""⟩, some ⟨"", "", ""⟩, some "a"⟩
          ⟨true, ⟨none, true, true, some 2⟩⟩
          ⟨some 1, 0, ⟨"all", "debug", ⟨"", "", ""⟩⟩, "5443", "443", "envoy"⟩).state, []⟩ :=
  (update_idempotent_on_equal_projection
    ⟨⟨"proxy", "info", "", "", "", ""⟩, some ⟨"", "", ""⟩, some "a"⟩
    ⟨⟨"proxy", "", "info", "", "", ""⟩, some ⟨"", "", ""⟩, some "a"⟩
    ⟨true, ⟨none, true, true, some 2⟩⟩ ⟨true, ⟨none, true, true, some 3⟩⟩
    ⟨some 1, 0, ⟨"all", "debug", ⟨"", "", ""⟩⟩, "5443", "443", "envoy"⟩
    ⟨"proxy", "info", ⟨"", "", ""⟩⟩ (by decide) (by decide)).1

/-- C1 witness: a concrete run with a failing spawn keeps the previous handle
current, and a concrete successful run spawns before releasing. -/
theorem run_handoff_invariant_witness :
    ((run ⟨some 7, true, true, none⟩
        ⟨some 1, 0, ⟨"all", "debug", ⟨"", "", ""⟩⟩, "5443", "443", "envoy"⟩).err
          = some "error starting envoy"
      ∧ (run ⟨some 7, true, true, none⟩
          ⟨some 1, 0, ⟨"all", "debug", ⟨"", "", ""⟩⟩, "5443", "443", "envoy"⟩).state.cmd
          = some 1
      ∧ ∀ p, Event.released p ∉ (run ⟨some 7, true, true, none⟩
          ⟨some 1, 0, ⟨"all", "debug", ⟨"", "", ""⟩⟩, "5443", "443", "envoy"⟩).events)
    ∧ ∃ pid, Event.spawned pid
        (run ⟨some 7, true, true, some 2⟩
          ⟨some 1, 0, ⟨"all", "debug", ⟨"", "", ""⟩⟩, "5443", "443", "envoy"⟩).args
        ∈ [Event.spawned 2 (run ⟨some 7, true, true, some 2⟩
          ⟨some 1, 0, ⟨"all", "debug", ⟨"", "", ""⟩⟩, "5443", "443", "envoy"⟩).args] := by
  constructor
  · have h := (run_handoff_invariant ⟨some 7, true, true, none⟩
      ⟨some 1, 0, ⟨"all", "debug", ⟨"", "", ""⟩⟩, "5443", "443", "envoy"⟩).2 rfl rfl rfl
    exact ⟨h.1, h.2.1, h.2.2⟩
  · exact ((run_handoff_invariant ⟨some 7, true, true, some 2⟩
      ⟨some 1, 0, ⟨"all", "debug", ⟨"", "", ""⟩⟩, "5443", "443", "envoy"⟩).1
      1 [Event.spawned 2 _] [] (by decide)).2

lemma run_spawn_failure (env : RunEnv) (s : ServerState)
    (h1 : env.stderrPipeOk = true) (h2 : env.stdoutPipeOk = true)
    (h3 : env.startResult = none) :
    (run env s).state.cmd = s.cmd ∧ (run env s).events = [Event.spawnFailed] := by
  obtain ⟨bid, sep, sop, sres⟩ := env
  simp only at h1 h2 h3
  subst h1; subst h2; subst h3
  cases bid <;> simp [run]

/-- C3 counterexample: a configuration change whose bootstrap write fails is a
recoverable failure, yet the supervisor state after the call differs from the
state before it — `update` installs the new serverOptions before attempting
the write, so the failure does not leave the mutable state unchanged. -/
theorem update_failure_not_state_preserving_counterexample :
    (update ⟨⟨"proxy", "debug", "", "alog", "ppath", "addr"⟩, some ⟨"", "", ""⟩, some "adminaddr"⟩
        ⟨false, ⟨some 77, true, true, some 2⟩⟩
        ⟨some 1, 0, ⟨"all", "debug", ⟨"", "", ""⟩⟩, "5443", "443", "envoy"⟩).state
      ≠ ⟨some 1, 0, ⟨"all", "debug", ⟨"", "", ""⟩⟩, "5443", "443", "envoy"⟩
    ∧ spawnCount (update ⟨⟨"proxy", "debug", "", "alog", "ppath", "addr"⟩, some ⟨"", "", ""⟩, some "adminaddr"⟩
        ⟨false, ⟨some 77, true, true, some 2⟩⟩
        ⟨some 1, 0, ⟨"all", "debug", ⟨"", "", ""⟩⟩, "5443", "443", "envoy"⟩).events = 0 := by
  constructor
  · intro h
    have := congrArg (fun st => st.options.services) h
    simp [update, buildBootstrapConfig, goAtoi, decDigits?, decDigitsAux,
      isDigitChar, firstNonEmpty] at this
  · decide

/-- C3 (amended): on an invalid-tracing failure the entire state is preserved
and nothing happens; on a bootstrap-build or config-write failure the process
handle and restart epoch are preserved and no restart is performed, but the
new serverOptions are already installed; on a spawn failure additionally the
restart epoch has already been incremented whenever a persisted base id was
found.  In every failure case the current process handle is unchanged and no
process is spawned. -/
theorem update_failure_paths (cfg : Config) (env : UpdateEnv) (s : ServerState) :
    (cfg.tracingResult = none → update cfg env s = ⟨s, []⟩)
    ∧ (∀ o msg, projectOptions cfg = some o → s.options ≠ o →
        buildBootstrapConfig { s with options := o } cfg = Except.error msg →
        update cfg env s = ⟨{ s with options := o }, []⟩)
    ∧ (∀ o b, projectOptions cfg = some o → s.options ≠ o →
        buildBootstrapConfig { s with options := o } cfg = Except.ok b →
        env.writeOk = false →
        update cfg env s = ⟨{ s with options := o }, [Event.builtBootstrap]⟩)
    ∧ (∀ o b, projectOptions cfg = some o → s.options ≠ o →
        buildBootstrapConfig { s with options := o } cfg = Except.ok b →
        env.writeOk = true → env.runEnv.stderrPipeOk = true →
        env.runEnv.stdoutPipeOk = true → env.runEnv.startResult = none →
        (update cfg env s).state.cmd = s.cmd
          ∧ (update cfg env s).state.options = o
          ∧ (update cfg env s).state.restartEpoch =
              s.restartEpoch + (if env.runEnv.baseID.isSome then 1 else 0)
          ∧ spawnCount (update cfg env s).events = 0) := by
  rcases cfg with ⟨opts, tr, ap⟩
  refine ⟨?_, ?_, ?_, ?_⟩
  · intro h; subst h; simp [update]
  · rintro o msg hproj hne hbuild
    cases tr with
    | none => simp [projectOptions] at hproj
    | some t =>
      have hproj : (⟨opts.services,
          firstNonEmpty opts.proxyLogLevel opts.logLevel "debug", t⟩ : serverOptions) = o := by
        simpa [projectOptions] using hproj
      simp only [update, hproj]
      rw [if_neg hne]
      simp [hbuild]
  · rintro o b hproj hne hbuild hw
    cases tr with
    | none => simp [projectOptions] at hproj
    | some t =>
      have hproj : (⟨opts.services,
          firstNonEmpty opts.proxyLogLevel opts.logLevel "debug", t⟩ : serverOptions) = o := by
        simpa [projectOptions] using hproj
      simp only [update, hproj]
      rw [if_neg hne]
      simp [hbuild, hw]
  · rintro o b hproj hne hbuild hw h1 h2 h3
    cases tr with
    | none => simp [projectOptions] at hproj
    | some t =>
      have hproj : (⟨opts.services,
          firstNonEmpty opts.proxyLogLevel opts.logLevel "debug", t⟩ : serverOptions) = o := by
        simpa [projectOptions] using hproj
      have hrunc := run_spawn_failure env.runEnv { s with options := o } h1 h2 h3
      have hepoch := run_state_epoch env.runEnv { s with options := o }
      have hopts := run_state_options env.runEnv { s with options := o }
      simp only [update, hproj]
      rw [if_neg hne]
      simp [hbuild, hw, hrunc.1, hrunc.2, hepoch, hopts, spawnCount, List.countP_cons]

/-- C3 witness: concrete instantiations of each failure path of the amended
theorem. -/
theorem update_failure_paths_witness :
    (update ⟨⟨"proxy", "debug", "", "alog", "ppath", "addr"⟩, some ⟨"", "", ""⟩, none⟩
        ⟨true, ⟨none, true, true, some 2⟩⟩
        ⟨some 1, 0, ⟨"all", "debug", ⟨"", "", ""⟩⟩, "5443", "443", "envoy"⟩
      = ⟨⟨some 1, 0, ⟨"proxy", "debug", ⟨"", "", ""⟩⟩, "5443", "443", "envoy"⟩, []⟩)
    ∧ ((update ⟨⟨"proxy", "debug", "", "alog", "ppath", "addr"⟩, some ⟨"", "", ""⟩, some "adminaddr"⟩
        ⟨true, ⟨some 9, true, true, none⟩⟩
        ⟨some 1, 0, ⟨"all", "debug", ⟨"", "", ""⟩⟩, "5443", "443", "envoy"⟩).state.cmd = some 1
      ∧ (update ⟨⟨"proxy", "debug", "", "alog", "ppath", "addr"⟩, some ⟨"", "", ""⟩, some "adminaddr"⟩
        ⟨true, ⟨some 9, true, true, none⟩⟩
        ⟨some 1, 0, ⟨"all", "debug", ⟨"", "", ""⟩⟩, "5443", "443", "envoy"⟩).state.options
          = ⟨"proxy", "debug", ⟨"", "", ""⟩⟩
      ∧ (update ⟨⟨"proxy", "debug", "", "alog", "ppath", "addr"⟩, some ⟨"", "", ""⟩, some "adminaddr"⟩
        ⟨true, ⟨some 9, true, true, none⟩⟩
        ⟨some 1, 0, ⟨"all", "debug", ⟨"", "", ""⟩⟩, "5443", "443", "envoy"⟩).state.restartEpoch
          = 0 + (if (some 9 : Option Nat).isSome then 1 else 0)
      ∧ spawnCount (update ⟨⟨"proxy", "debug", "", "alog", "ppath", "addr"⟩, some ⟨"", "", ""⟩, some "adminaddr"⟩
        ⟨true, ⟨some 9, true, true, none⟩⟩
        ⟨some 1, 0, ⟨"all", "debug", ⟨"", "", ""⟩⟩, "5443", "443", "envoy"⟩).events = 0) := by
  constructor
  · exact (update_failure_paths
      ⟨⟨"proxy", "debug", "", "alog", "ppath", "addr"⟩, some ⟨"", "", ""⟩, none⟩
      ⟨true, ⟨none, true, true, some 2⟩⟩
      ⟨some 1, 0, ⟨"all", "debug", ⟨"", "", ""⟩⟩, "5443", "443", "envoy"⟩).2.1
      ⟨"proxy", "debug", ⟨"", "", ""⟩⟩ "invalid admin address"
      (by decide) (by decide) (by rfl)
  · exact (update_failure_paths
      ⟨⟨"proxy", "debug", "", "alog", "ppath", "addr"⟩, some ⟨"", "", ""⟩, some "adminaddr"⟩
      ⟨true, ⟨some 9, true, true, none⟩⟩
      ⟨some 1, 0, ⟨"all", "debug", ⟨"", "", ""⟩⟩, "5443", "443", "envoy"⟩).2.2.2
      ⟨"proxy", "debug", ⟨"", "", ""⟩⟩
      ⟨"proxy", "proxy", "adminaddr", "alog", "ppath",
        [controlPlaneCluster 5443], "proxy"⟩
      (by decide) (by decide) (by rfl) rfl rfl rfl rfl

/-- C4 counterexample: after `Close` has killed the process and cleared the
handle, a configuration-change notification with different projected options
spawns a fresh process — there is no terminal `Closed` state in the code. -/
theorem close_not_terminal_counterexample :
    (Close ⟨true⟩ ⟨some 6, 3, ⟨"all", "debug", ⟨"", "", ""⟩⟩, "5443", "443", "envoy"⟩).state.cmd
      = none
    ∧ spawnCount (update
        ⟨⟨"proxy", "info", "", "alog", "ppath", "addr"⟩, some ⟨"", "", ""⟩, some "adminaddr"⟩
        ⟨true, ⟨none, true, true, some 9⟩⟩
        (Close ⟨true⟩
          ⟨some 6, 3, ⟨"all", "debug", ⟨"", "", ""⟩⟩, "5443", "443", "envoy"⟩).state).events
      = 1 := by
  decide

/-- C4 (amended): `Close` kills the current child process (when one exists),
clears the current process handle and returns the kill error; but the
supervisor has no terminal Closed state: a later configuration-change
notification whose projected options differ from the current ones starts a
new process, as the concrete post-Close trace shows. -/
theorem close_clears_handle_but_not_terminal :
    (∀ (cenv : CloseEnv) (s : ServerState),
      (Close cenv s).state.cmd = none
      ∧ (∀ p, s.cmd = some p → Close cenv s =
          ⟨if cenv.killOk then none else some "kill failed",
            { s with cmd := none }, [Event.killed p]⟩)
      ∧ (s.cmd = none → Close cenv s = ⟨none, s, []⟩))
    ∧ spawnCount (update
        ⟨⟨"proxy", "debug", "", "alog", "ppath", "addr"⟩, some ⟨"", "", ""⟩, some "adminaddr"⟩
        ⟨true, ⟨none, true, true, some 2⟩⟩
        (Close ⟨true⟩
          ⟨some 1, 0, ⟨"all", "debug", ⟨"", "", ""⟩⟩, "5443", "443", "envoy"⟩).state).events
      = 1 := by
  constructor
  · intro cenv s
    refine ⟨?_, ?_, ?_⟩
    · cases h : s.cmd <;> simp [Close, h]
    · intro p hp
      simp [Close, hp]
    · intro hp
      simp [Close, hp]
  · decide

/-- C4 witness: a concrete `Close` call on a running supervisor with a failing
kill still clears the handle and returns the error. -/
theorem close_clears_handle_but_not_terminal_witness :
    Close ⟨false⟩ ⟨some 4, 2, ⟨"all", "debug", ⟨"", "", ""⟩⟩, "5443", "443", "envoy"⟩
      = ⟨some "kill failed",
          ⟨none, 2, ⟨"all", "debug", ⟨"", "", ""⟩⟩, "5443", "443", "envoy"⟩,
          [Event.killed 4]⟩ := by
  have h := (close_clears_handle_but_not_terminal.1 ⟨false⟩
    ⟨some 4, 2, ⟨"all", "debug", ⟨"", "", ""⟩⟩, "5443", "443", "envoy"⟩).2.1 4 rfl
  simpa using h

lemma run_args_eq (env : RunEnv) (s : ServerState) :
    (run env s).args = runArgs s.options s.restartEpoch env.baseID := by
  obtain ⟨bid, sep, sop, sres⟩ := env
  cases sep <;> cases sop <;> cases sres <;> simp [run]

lemma runSeq_append (xs ys : List RunEnv) (s : ServerState) :
    runSeq (xs ++ ys) s =
      ((runSeq xs s).1 ++ (runSeq ys (runSeq xs s).2).1, (runSeq ys (runSeq xs s).2).2) := by
  induction xs generalizing s with
  | nil => simp [runSeq]
  | cons e rest ih => simp [runSeq, ih]

lemma runSeq_options (xs : List RunEnv) (s : ServerState) :
    (runSeq xs s).2.options = s.options := by
  induction xs generalizing s with
  | nil => simp [runSeq]
  | cons e rest ih => rw [runSeq, ih, run_state_options]

lemma runSeq_epoch (xs : List RunEnv) (s : ServerState) :
    (runSeq xs s).2.restartEpoch = s.restartEpoch + countBaseID xs := by
  induction xs generalizing s with
  | nil => simp [runSeq, countBaseID]
  | cons e rest ih =>
    rw [runSeq]
    dsimp only
    rw [ih, run_state_epoch]
    cases h : e.baseID <;> (simp [countBaseID, h, List.countP_cons]; try omega)

/-- C5 counterexample: a lifetime whose first run (with a persisted base id)
fails at the spawn step still consumes restart epoch 0, so across the
successful runs the `--restart-epoch` argument does not start at 0: the trace
of (spawn succeeded?, epoch argument) per run is
`[(false, "0"), (true, "1"), (true, "2")]` — the first successful run
receives epoch 1. -/
theorem restart_epoch_claim_counterexample :
    ((runSeq [⟨some 5, true, true, none⟩, ⟨some 5, true, true, some 2⟩,
        ⟨some 5, true, true, some 3⟩]
        ⟨none, 0, ⟨"all", "debug", ⟨"", "", ""⟩⟩, "5443", "443", "envoy"⟩).1.map
      fun r => (r.err.isNone, argAfter "--restart-epoch" r.args))
      = [(false, some "0"), (true, some "1"), (true, some "2")] := by
  decide

/-- C5 (amended): within one server lifetime starting at restart epoch 0, the
run at any position whose environment finds a persisted base id passes
`--restart-epoch n` where `n` is the number of earlier runs (successful or
not) that found a persisted base id — so the argument starts at 0 and
increases by exactly 1 on each such run, counting failed spawns as well; a
run that finds no persisted base id instead gets `--use-dynamic-base-id`
with a `--base-id-path` and no `--restart-epoch` argument. -/
theorem restart_epoch_argument (pre : List RunEnv) (e : RunEnv) (post : List RunEnv)
    (s0 : ServerState) (h0 : s0.restartEpoch = 0) :
    ((runSeq (pre ++ e :: post) s0).1 =
      (runSeq pre s0).1 ++
        run e (runSeq pre s0).2 :: (runSeq post (run e (runSeq pre s0).2).state).1)
    ∧ (∀ b, e.baseID = some b →
        (run e (runSeq pre s0).2).args =
          baseArgs s0.options ++
            ["--base-id", toString b, "--restart-epoch", toString (countBaseID pre)])
    ∧ (e.baseID = none →
        (run e (runSeq pre s0).2).args =
          baseArgs s0.options ++ ["--use-dynamic-base-id", "--base-id-path", baseIDPath]) := by
  refine ⟨?_, ?_, ?_⟩
  · rw [runSeq_append]
    simp [runSeq]
  · intro b hb
    rw [run_args_eq, runSeq_options, runSeq_epoch, h0, hb]
    simp [runArgs]
  · intro hb
    rw [run_args_eq, runSeq_options, hb]
    simp [runArgs]

/-- C5 witness: in a lifetime whose first run found base id 7, a second run
that also finds the base id receives `--restart-epoch 1`. -/
theorem restart_epoch_argument_witness :
    (run ⟨some 7, true, true, some 9⟩
        (runSeq [⟨some 7, true, true, some 8⟩]
          ⟨none, 0, ⟨"all", "debug", ⟨"", "", ""⟩⟩, "5443", "443", "envoy"⟩).2).args
      = baseArgs ⟨"all", "debug", ⟨"", "", ""⟩⟩ ++
          ["--base-id", toString (7 : Nat), "--restart-epoch",
            toString (countBaseID [⟨some 7, true, true, some 8⟩])] :=
  (restart_epoch_argument [⟨some 7, true, true, some 8⟩] ⟨some 7, true, true, some 9⟩ []
    ⟨none, 0, ⟨"all", "debug", ⟨"", "", ""⟩⟩, "5443", "443", "envoy"⟩ rfl).2.1 7 rfl

/-- C6: when a trusted checksum is configured (nonempty) and the SHA-256 hex
digest of the resolved binary differs from it, `NewServer` returns an error
with an empty event trace — no child process is ever spawned; when no
checksum is configured, construction proceeds past verification and returns a
server (it is never blocked by the absence of a checksum). -/
theorem newServer_checksum_enforcement (checksum : String) (env : NewServerEnv)
    (g hp : String) :
    (env.mkdirOk = true → env.lookPathOk = true →
      ∀ bs, checksum ≠ "" → env.readFileResult = some bs →
        env.sha256Hex bs ≠ checksum →
        NewServer checksum env g hp = (Except.error "invalid envoy binary", []))
    ∧ (env.mkdirOk = true → env.lookPathOk = true → checksum = "" →
        ∃ st, (NewServer checksum env g hp).1 = Except.ok st) := by
  obtain ⟨mk, ex, lp, rf, sh, ic, ue⟩ := env
  constructor
  · intro hmk hlp bs hcs hrf hne
    simp only at hmk hlp hrf
    subst hmk; subst hlp; subst hrf
    simp [NewServer, hcs, Ne.symm hne]
  · intro hmk hlp hcs
    simp only at hmk hlp
    subst hmk; subst hlp; subst hcs
    simp [NewServer]

/-- C6 witness: a concrete digest mismatch aborts construction with no spawn,
and a concrete empty checksum constructs a server. -/
theorem newServer_checksum_enforcement_witness :
    NewServer "ff" ⟨true, some "envoy", true, some [1, 2], fun _ => "00",
        ⟨⟨"all", "debug", "", "alog", "ppath", "addr"⟩, some ⟨"", "", ""⟩, some "adminaddr"⟩,
        ⟨true, ⟨none, true, true, some 2⟩⟩⟩ "5443" "443"
      = (Except.error "invalid envoy binary", [])
    ∧ ∃ st, (NewServer "" ⟨true, some "envoy", true, none, fun _ => "00",
        ⟨⟨"all", "debug", "", "alog", "ppath", "addr"⟩, some ⟨"", "", ""⟩, some "adminaddr"⟩,
        ⟨true, ⟨none, true, true, some 2⟩⟩⟩ "5443" "443").1 = Except.ok st := by
  constructor
  · exact (newServer_checksum_enforcement "ff" ⟨true, some "envoy", true, some [1, 2],
      fun _ => "00",
      ⟨⟨"all", "debug", "", "alog", "ppath", "addr"⟩, some ⟨"", "", ""⟩, some "adminaddr"⟩,
      ⟨true, ⟨none, true, true, some 2⟩⟩⟩ "5443" "443").1 rfl rfl [1, 2]
      (by decide) rfl (by decide)
  · exact (newServer_checksum_enforcement "" ⟨true, some "envoy", true, none,
      fun _ => "00",
      ⟨⟨"all", "debug", "", "alog", "ppath", "addr"⟩, some ⟨"", "", ""⟩, some "adminaddr"⟩,
      ⟨true, ⟨none, true, true, some 2⟩⟩⟩ "5443" "443").2 rfl rfl rfl

/-- C9: every grpcPort string accepted by `strconv.Atoi` (including negative
ones) yields a bootstrap whose control-plane endpoint port is the parsed
integer reduced modulo `2^32` (Go's `uint32` conversion) with no error, and
the invalid-control-plane-port error occurs exactly when `Atoi` fails. -/
theorem controlPlanePort_mod_2_32 (s : ServerState) (cfg : Config) (a : String)
    (ha : cfg.adminParse = some a) :
    (∀ v, goAtoi s.grpcPort = some v →
      ∃ b, buildBootstrapConfig s cfg = Except.ok b ∧
        b.staticClusters.head? =
          some (controlPlaneCluster ((v % ((2 : Int) ^ 32)).toNat)))
    ∧ (goAtoi s.grpcPort = none →
        buildBootstrapConfig s cfg = Except.error "invalid control plane port") := by
  constructor
  · intro v hv
    simp only [buildBootstrapConfig, ha, hv]
    by_cases hp : s.options.tracingOptions.provider = DatadogTracingProviderName
    · rw [if_pos hp]
      exact ⟨_, rfl, by simp [goUint32]⟩
    · rw [if_neg hp]
      exact ⟨_, rfl, by simp [goUint32]⟩
  · intro hv
    simp [buildBootstrapConfig, ha, hv]

/-- C9 witness: the string `"-1"` parses, produces no error, and yields
control-plane port 4294967295. -/
theorem controlPlanePort_mod_2_32_witness :
    ∃ b, buildBootstrapConfig
        ⟨none, 0, ⟨"all", "debug", ⟨"", "", ""⟩⟩, "-1", "443", "envoy"⟩
        ⟨⟨"all", "debug", "", "alog", "ppath", "addr"⟩, some ⟨"", "", ""⟩, some "adminaddr"⟩
      = Except.ok b
      ∧ b.staticClusters.head? = some (controlPlaneCluster 4294967295) := by
  obtain ⟨b, hb1, hb2⟩ := (controlPlanePort_mod_2_32
    ⟨none, 0, ⟨"all", "debug", ⟨"", "", ""⟩⟩, "-1", "443", "envoy"⟩
    ⟨⟨"all", "debug", "", "alog", "ppath", "addr"⟩, some ⟨"", "", ""⟩, some "adminaddr"⟩
    "adminaddr" rfl).1 (-1) (by decide)
  refine ⟨b, hb1, ?_⟩
  rw [hb2]
  rfl

/-- C8 counterexample: with the Datadog provider and the malformed override
`"example.com:x"` (its port part does not parse), the collector cluster ends
up at `example.com:8126` — the host of the override combined with the default
port — rather than at the default `127.0.0.1:8126` the claim promises for a
malformed override. -/
theorem datadog_partial_override_counterexample :
    ((buildBootstrapConfig
        ⟨none, 0, ⟨"all", "debug", ⟨"datadog", "example.com:x", ""⟩⟩, "5443", "443", "envoy"⟩
        ⟨⟨"all", "debug", "", "alog", "ppath", "addr"⟩,
          some ⟨"datadog", "example.com:x", ""⟩, some "adminaddr"⟩).toOption.map
      fun b => b.staticClusters.map fun c => c.endpointAddress)
      = some [⟨"127.0.0.1", 5443⟩, ⟨"example.com", 8126⟩]
    ∧ goParseUint32 "x" = none := by
  decide

/-- C8 (amended): with the Datadog provider the bootstrap's static resources
hold exactly two clusters (control plane first, then the collector), and with
any other provider exactly one; the collector defaults to `127.0.0.1:8126`;
an override that fails `host:port` splitting is ignored entirely; an override
that splits as `host:port` always overrides the host, and overrides the port
only when the port parses as an unsigned 32-bit decimal (otherwise the port
stays 8126 while the host is still overridden). -/
theorem bootstrap_cluster_count (s : ServerState) (cfg : Config) (a : String) (v : Int)
    (ha : cfg.adminParse = some a) (hv : goAtoi s.grpcPort = some v) :
    (s.options.tracingOptions.provider = DatadogTracingProviderName →
      ∃ b, buildBootstrapConfig s cfg = Except.ok b ∧
        b.staticClusters.length = 2 ∧
        b.staticClusters = [controlPlaneCluster (goUint32 v),
          datadogCluster s.options.tracingOptions.datadogAddress])
    ∧ (s.options.tracingOptions.provider ≠ DatadogTracingProviderName →
      ∃ b, buildBootstrapConfig s cfg = Except.ok b ∧
        b.staticClusters.length = 1 ∧
        b.staticClusters = [controlPlaneCluster (goUint32 v)])
    ∧ datadogCollectorAddr "" = ⟨"127.0.0.1", 8126⟩
    ∧ (∀ da, goSplitHostPort da = none → datadogCollectorAddr da = ⟨"127.0.0.1", 8126⟩)
    ∧ (∀ da hs ps, goSplitHostPort da = some (hs, ps) →
        datadogCollectorAddr da =
          ⟨hs, match goParseUint32 ps with
               | some pv => pv
               | none => 8126⟩) := by
  refine ⟨?_, ?_, by decide, ?_, ?_⟩
  · intro hp
    simp only [buildBootstrapConfig, ha, hv]
    rw [if_pos hp]
    exact ⟨_, rfl, by simp, rfl⟩
  · intro hp
    simp only [buildBootstrapConfig, ha, hv]
    rw [if_neg hp]
    exact ⟨_, rfl, by simp, rfl⟩
  · intro da hsplit
    by_cases hda : da = ""
    · subst hda; decide
    · simp [datadogCollectorAddr, hda, hsplit]
  · intro da hs ps hsplit
    have hda : da ≠ "" := by
      intro h
      subst h
      rw [show goSplitHostPort "" = none from rfl] at hsplit
      exact Option.noConfusion hsplit
    simp only [datadogCollectorAddr, hda, if_neg, hsplit, reduceIte]
    cases goParseUint32 ps <;> rfl

/-- C8 witness: concrete instantiations — Datadog provider with a well-formed
override produces the two clusters with the overridden collector address, and
a non-Datadog provider produces one cluster. -/
theorem bootstrap_cluster_count_witness :
    (∃ b, buildBootstrapConfig
        ⟨none, 0, ⟨"all", "debug", ⟨"datadog", "myhost:9999", ""⟩⟩, "5443", "443", "envoy"⟩
        ⟨⟨"all", "debug", "", "alog", "ppath", "addr"⟩,
          some ⟨"datadog", "myhost:9999", ""⟩, some "adminaddr"⟩ = Except.ok b ∧
        b.staticClusters.length = 2 ∧
        b.staticClusters = [controlPlaneCluster (goUint32 5443),
          datadogCluster "myhost:9999"])
    ∧ (∃ b, buildBootstrapConfig
        ⟨none, 0, ⟨"all", "debug", ⟨"jaeger", "", ""⟩⟩, "5443", "443", "envoy"⟩
        ⟨⟨"all", "debug", "", "alog", "ppath", "addr"⟩,
          some ⟨"jaeger", "", ""⟩, some "adminaddr"⟩ = Except.ok b ∧
        b.staticClusters.length = 1 ∧
        b.staticClusters = [controlPlaneCluster (goUint32 5443)])
    ∧ datadogCollectorAddr "myhost:9999" = ⟨"myhost", 9999⟩ := by
  refine ⟨?_, ?_, ?_⟩
  · exact (bootstrap_cluster_count
      ⟨none, 0, ⟨"all", "debug", ⟨"datadog", "myhost:9999", ""⟩⟩, "5443", "443", "envoy"⟩
      ⟨⟨"all", "debug", "", "alog", "ppath", "addr"⟩,
        some ⟨"datadog", "myhost:9999", ""⟩, some "adminaddr"⟩
      "adminaddr" 5443 rfl (by decide)).1 rfl
  · exact (bootstrap_cluster_count
      ⟨none, 0, ⟨"all", "debug", ⟨"jaeger", "", ""⟩⟩, "5443", "443", "envoy"⟩
      ⟨⟨"all", "debug", "", "alog", "ppath", "addr"⟩,
        some ⟨"jaeger", "", ""⟩, some "adminaddr"⟩
      "adminaddr" 5443 rfl (by decide)).2.1 (by decide)
  · have h := (bootstrap_cluster_count
      ⟨none, 0, ⟨"all", "debug", ⟨"datadog", "myhost:9999", ""⟩⟩, "5443", "443", "envoy"⟩
      ⟨⟨"all", "debug", "", "alog", "ppath", "addr"⟩,
        some ⟨"datadog", "myhost:9999", ""⟩, some "adminaddr"⟩
      "adminaddr" 5443 rfl (by decide)).2.2.2.2 "myhost:9999" "myhost" "9999" (by decide)
    rw [h]
    decide

/-! ### Helper lemmas about the log-decoding pipeline -/

lemma splitFirst_decomp {sep : List Char} :
    ∀ {s a b : List Char}, splitFirst sep s = some (a, b) → s = a ++ sep ++ b := by
  intro s
  induction s with
  | nil => intro a b h; simp [splitFirst] at h
  | cons c rest ih =>
    intro a b h
    rw [splitFirst] at h
    split at h
    · next hp =>
      simp only [Option.some.injEq, Prod.mk.injEq] at h
      obtain ⟨ha, hb⟩ := h
      subst ha
      subst hb
      obtain ⟨t, ht⟩ := List.isPrefixOf_iff_prefix.mp hp
      rw [← ht, List.nil_append, List.drop_left]
    · split at h
      · next a0 b0 heq =>
        simp only [Option.some.injEq, Prod.mk.injEq] at h
        obtain ⟨ha, hb⟩ := h
        subst ha
        subst hb
        have := ih heq
        rw [List.cons_append, List.cons_append, ← this]
      · exact Option.noConfusion h

lemma goSplitN3_three {s a b c : List Char} (h : goSplitN3 s = [a, b, c]) :
    s = a ++ sepDD ++ (b ++ sepDD ++ c) := by
  rw [goSplitN3] at h
  split at h
  · exact absurd h (by simp)
  · next a0 b0 heq1 =>
    split at h
    · exact absurd h (by simp)
    · next c0 d0 heq2 =>
      simp only [List.cons.injEq, and_true] at h
      obtain ⟨h1, h2, h3⟩ := h
      subst h1
      subst h2
      subst h3
      have d1 := splitFirst_decomp heq1
      have d2 := splitFirst_decomp heq2
      rw [d1, d2]

lemma getLast?_append_pair (l : List Char) (a b : Char) :
    (l ++ [a, b]).getLast? = some b := by
  rw [show l ++ [a, b] = (l ++ [a]) ++ [b] by simp]
  exact List.getLast?_concat _

lemma last_dash_of_split3 {l p0 p1 : List Char} (h : goSplitN3 l = [p0, p1, []]) :
    l.getLast? = some '-' ∧ l ≠ [] := by
  have hd := goSplitN3_three h
  rw [List.append_nil] at hd
  constructor
  · rw [hd, show p0 ++ sepDD ++ (p1 ++ sepDD) = (p0 ++ sepDD ++ p1) ++ ['-', '-'] by
      simp [sepDD, List.append_assoc]]
    exact getLast?_append_pair _ _ _
  · rw [hd]
    simp [sepDD]

lemma goUnquoteL_none_of_last_dash :
    ∀ {s : List Char}, s.getLast? = some '-' → goUnquoteL s = none := by
  intro s h
  match s with
  | [] => simp at h
  | [x] => rfl
  | q :: r :: rs =>
    have hr : (r :: rs).getLast? = some '-' := by
      rwa [List.getLast?_cons_cons] at h
    by_cases hq : q = '-'
    · subst hq
      simp [goUnquoteL, hr, backquoteChar]
    · simp [goUnquoteL, hr, hq]

lemma unquoteLoopGo_ne_nil {q : Char} {fuel : Nat} {l : List Char} (h : l ≠ []) :
    unquoteLoopGo q fuel l ≠ some [] := by
  match fuel, l with
  | _, [] => exact absurd rfl h
  | 0, c :: rest => simp [unquoteLoopGo]
  | f + 1, c :: rest =>
    simp only [unquoteLoopGo]
    cases h1 : unquoteChar q (c :: rest) with
    | none => simp [h1]
    | some pr =>
      obtain ⟨ch, r2⟩ := pr
      cases h2 : unquoteLoopGo q f r2 with
      | none => simp [h1, h2]
      | some out => simp [h1, h2]

lemma goUnquoteL_wrap_ne_nil {g2 u : List Char} (hg : g2 ≠ [])
    (h : goUnquoteL ('"' :: (g2 ++ ['"'])) = some u) : u ≠ [] := by
  match g2, hg with
  | g :: gs, _ =>
    have hlast : ((g :: gs) ++ ['"']).getLast? = some '"' :=
      List.getLast?_concat _
    have hdrop : ((g :: gs) ++ ['"']).dropLast = g :: gs :=
      List.dropLast_concat
    rw [List.cons_append] at hlast hdrop
    simp only [goUnquoteL, hlast, hdrop, List.cons_append] at h
    simp [backquoteChar] at h
    intro hu
    subst hu
    exact unquoteLoopGo_ne_nil (by simp) h.2

lemma tryClassLen_some :
    ∀ (k : Nat) {full g1 g2 : List Char}, tryClassLen full k = some (g1, g2) →
      ∃ pre w, '[' :: full = pre ++ w :: g2 ∧ isSpaceRE w = true := by
  intro k
  induction k with
  | zero => intro full g1 g2 h; simp [tryClassLen] at h
  | succ k ih =>
    intro full g1 g2 h
    rw [tryClassLen] at h
    split at h
    · next r2 heq1 =>
      split at h
      · next w tail heq2 =>
        split at h
        · next hcond =>
          simp only [Option.some.injEq, Prod.mk.injEq] at h
          obtain ⟨h1, h2⟩ := h
          subst h2
          have hsp : isSpaceRE w = true := by
            have := hcond
            simp only [Bool.and_eq_true] at this
            exact this.1.2
          obtain ⟨t, ht⟩ := List.takeWhile_prefix (l := r2) isDigitChar
          have hdrop : r2.drop (r2.takeWhile isDigitChar).length = t := by
            nth_rewrite 2 [← ht]
            exact List.drop_left _ _
          rw [hdrop] at heq2
          subst heq2
          refine ⟨'[' :: full.take (k + 1) ++ ':' :: r2.takeWhile isDigitChar ++ [']'],
            w, ?_, hsp⟩
          conv_lhs => rw [← List.take_append_drop (k + 1) full, heq1, ← ht]
          simp [List.append_assoc]
        · exact ih h
      · exact ih h
    · exact ih h

lemma goRegexMatch_some {l g1 g2 : List Char} (h : goRegexMatch l = some (g1, g2)) :
    ∃ pre w, l = pre ++ w :: g2 ∧ isSpaceRE w = true := by
  rw [goRegexMatch.eq_def] at h
  split at h
  · exact tryClassLen_some _ h
  · exact Option.noConfusion h

lemma processLineL_none_iff (l : List Char) : processLineL l = none ↔ finalMsg l = [] := by
  by_cases h : finalMsg l = [] <;> simp [processLineL, h]

lemma finalMsg_ne_nil {l p0 p1 : List Char} (h : goSplitN3 l = [p0, p1, []]) :
    finalMsg l ≠ [] := by
  obtain ⟨hlast, hlne⟩ := last_dash_of_split3 h
  have hp : parseLog l = (p1, stripLogFormatTag p0, []) := by
    simp [parseLog, h]
  simp only [finalMsg, hp, if_true]
  cases hre : goRegexMatch l with
  | none =>
    simp only [postProcessMsg, hre, goUnquoteL_none_of_last_dash hlast]
    exact hlne
  | some pr =>
    obtain ⟨g1, g2⟩ := pr
    have hg2 : g2 ≠ [] := by
      obtain ⟨pre, w, hlw, hsp⟩ := goRegexMatch_some hre
      intro hg
      subst hg
      rw [hlw, List.getLast?_concat] at hlast
      injection hlast with hw
      rw [hw] at hsp
      exact absurd hsp (by decide)
    simp only [postProcessMsg, hre]
    cases hu : goUnquoteL ('"' :: (g2 ++ ['"'])) with
    | none => simp [hu]
    | some u => simp [hu, goUnquoteL_wrap_ne_nil hg2 hu]

/-- C10: a line in the bracketed log format with an empty message part is not
dropped — the message defaults to the entire raw line (tag and separators
included) and a record is emitted, as for the concrete example; and a line is
dropped exactly when its final processed message is empty. -/
theorem empty_message_part_not_dropped :
    (handleLogLine "[LOG_FORMAT]info--envoy--"
      = some ⟨"envoy", ZLevel.info, "[LOG_FORMAT]info--envoy--"⟩)
    ∧ (∀ l p0 p1, goSplitN3 l = [p0, p1, []] → processLineL l ≠ none)
    ∧ (∀ l p0 p1, goSplitN3 l = [p0, p1, []] → goRegexMatch l = none →
        processLineL l = some ⟨(if p1 = [] then "envoy".data else p1).asString,
          (match zerologParseLevel (stripLogFormatTag p0).asString with
            | some x => x
            | none => ZLevel.debug), l.asString⟩)
    ∧ (∀ l, processLineL l = none ↔ finalMsg l = []) := by
  refine ⟨by decide, ?_, ?_, fun l => processLineL_none_iff l⟩
  · intro l p0 p1 h hnone
    exact finalMsg_ne_nil h ((processLineL_none_iff l).mp hnone)
  · intro l p0 p1 h hre
    obtain ⟨hlast, hlne⟩ := last_dash_of_split3 h
    have hp : parseLog l = (p1, stripLogFormatTag p0, []) := by
      simp [parseLog, h]
    have hfm : finalMsg l = l := by
      simp only [finalMsg, hp, if_true]
      simp only [postProcessMsg, hre, goUnquoteL_none_of_last_dash hlast]
    simp only [processLineL, hp, hfm]
    rw [if_neg hlne]

/-- C10 witness: concrete instantiation of the universal parts at the example
line. -/
theorem empty_message_part_not_dropped_witness :
    processLineL "[LOG_FORMAT]info--envoy--".data ≠ none
    ∧ processLineL "[LOG_FORMAT]info--envoy--".data
      = some ⟨(if "envoy".data = ([] : List Char) then "envoy".data else "envoy".data).asString,
          (match zerologParseLevel (stripLogFormatTag "[LOG_FORMAT]info".data).asString with
            | some x => x
            | none => ZLevel.debug), ("[LOG_FORMAT]info--envoy--".data).asString⟩ :=
  ⟨empty_message_part_not_dropped.2.1 _ "[LOG_FORMAT]info".data "envoy".data (by decide),
    empty_message_part_not_dropped.2.2.1 _ "[LOG_FORMAT]info".data "envoy".data
      (by decide) (by decide)⟩

/-- C7 counterexample: the pipeline emits the spec's example line at debug
level, not warning level — `zerolog.ParseLevel` does not recognise the
envoy level name `"warning"`, so `handleLogs` falls back to its debug
default. -/
theorem log_decoding_counterexample :
    handleLogLine "[LOG_FORMAT]warning--my-component--hello world"
      ≠ some ⟨"my-component", ZLevel.warn, "hello world"⟩
    ∧ (handleLogLine "[LOG_FORMAT]warning--my-component--hello world").map
        (fun r => r.lvl) = some ZLevel.debug := by
  decide

/-- C7 (amended): the example line decodes to component `my-component` and
message `hello world`, but is emitted at debug level (the sink does not
recognise `"warning"`); a nonempty line with no `--` separators (and no
file-and-line rewrite or unquote applying) produces component `envoy`, the
raw line as message, and zerolog NoLevel (the empty level string parses as
NoLevel rather than falling back to debug); a message whose `[file:line]`
segment is followed by an unquoted remainder is rewritten so that the emitted
message is the bare remainder, while a remainder that is itself quoted ends
up wrapped in a second pair of quotes instead of bare. -/
theorem log_decoding_levels_and_fileline :
    (handleLogLine "[LOG_FORMAT]warning--my-component--hello world"
      = some ⟨"my-component", ZLevel.debug, "hello world"⟩)
    ∧ (∀ l, splitFirst sepDD l = none → l ≠ [] → goRegexMatch l = none →
        goUnquoteL l = none →
        processLineL l = some ⟨"envoy", ZLevel.noLevel, l.asString⟩)
    ∧ (handleLogLine "[LOG_FORMAT]info--config--[config.cc:42] actual message"
      = some ⟨"config", ZLevel.info, "actual message"⟩)
    ∧ (handleLogLine "[LOG_FORMAT]info--config--[config.cc:42] \"actual message\""
      = some ⟨"config", ZLevel.info, "\"\"actual message\"\""⟩) := by
  refine ⟨by decide, ?_, by decide, by decide⟩
  intro l hsf hne hre hun
  have h3 : goSplitN3 l = [l] := by simp [goSplitN3, hsf]
  have hp : parseLog l = ([], [], []) := by simp [parseLog, h3]
  have hfm : finalMsg l = l := by
    simp only [finalMsg, hp, if_true]
    simp only [postProcessMsg, hre, hun]
  simp only [processLineL, hp, hfm]
  rw [if_neg hne]
  rfl

/-- C7 witness: a concrete separator-free line instantiating the universal
part of the amended theorem. -/
theorem log_decoding_levels_and_fileline_witness :
    processLineL "raw envoy output".data
      = some ⟨"envoy", ZLevel.noLevel, ("raw envoy output".data).asString⟩ :=
  log_decoding_levels_and_fileline.2.1 _ (by decide) (by decide) (by decide) (by decide)

end PomeriumEnvoy
